import Mathlib

/-!
Shallow embedding of the AI-Webshop Flask application (src/app.py,
src/admin_route.py) and verification of its specification.

Modelling conventions:
* SQLite REAL money amounts are modelled as `ℚ` (the concrete amounts the
  spec exercises, 10.00 / 5.00 / 25.00, are exact in binary floating point,
  so no behaviour is lost).
* SQLite tables are modelled as append-ordered `List`s of row structures;
  `AUTOINCREMENT` primary keys are `length + 1`, which is faithful because
  every store in scope is append-only (no deletes).
* The Flask session is modelled as explicit state: `AppState` carries the
  session cart (`session.get "cart" []`) and the logged-in user's email
  (the relevant handlers are wrapped in `login_required`, so the email is
  present when they run).
* `datetime.utcnow().isoformat()` is modelled as an explicit `now : String`
  parameter to the `/success` handler.
* The password-hashing primitive and the Stripe payment provider are
  external capabilities: hashing is a `String → String` parameter, and the
  provider call is represented by the `CheckoutResult.paymentRedirect`
  constructor carrying exactly the line items the handler builds (the
  provider is invoked if and only if that constructor is produced).
-/

set_option autoImplicit false

namespace AIWebshop

/-- Session cart entry: the dicts with keys name/price/quantity stored in
the session cart list by `add_to_cart` (src/app.py lines 178-196). -/
structure CartItem where
  name : String
  price : ℚ
  quantity : ℕ
  deriving DecidableEq

/-- Row of the `products` table (src/app.py lines 72-82).  `stock` is an
SQLite INTEGER with no non-negativity constraint, hence `ℤ`. -/
structure Product where
  id : ℕ
  name : String
  description : String
  price : ℚ
  stock : ℤ
  deriving DecidableEq

/-- Row of the `orders` table (src/app.py lines 85-92). -/
structure Order where
  id : ℕ
  user_email : String
  total : ℚ
  created_at : String
  deriving DecidableEq

/-- Row of the `order_items` table (src/app.py lines 95-105); `product_id`
is nullable. -/
structure OrderItem where
  id : ℕ
  order_id : ℕ
  product_id : Option ℕ
  product_name : String
  unit_price : ℚ
  quantity : ℕ
  deriving DecidableEq

/-- Row of the `users` table.  src/admin_route.py (lines 76-83) adds the
`role` column with DEFAULT the string user; src/app.py's `register` inserts
only email and password, so the role takes that default. -/
structure UserRow where
  id : ℕ
  email : String
  password : String
  role : String
  deriving DecidableEq

/-- The persistent SQLite database `users.db`, shared by both modules. -/
structure DB where
  users : List UserRow
  products : List Product
  orders : List Order
  order_items : List OrderItem
  deriving DecidableEq

/-- Per-request state visible to the session-backed handlers of src/app.py:
the database, the session cart, and the logged-in user's email. -/
structure AppState where
  db : DB
  cart : List CartItem
  user : String
  deriving DecidableEq

/-! ## Cart (src/app.py `add_to_cart`, lines 178-196, and `cart`, 240-245) -/

/-- The for/else loop of `add_to_cart` (src/app.py lines 187-192): walk the
cart; at the first item whose name matches, increment its quantity and stop
(`some` of the updated cart); `none` when no item matches (the for-else
branch).  The preliminary loop at lines 183-185 only repairs legacy session
dicts lacking a quantity key; in this typed model every item has one. -/
def bumpFirst : List CartItem → String → Option (List CartItem)
  | [], _ => none
  | item :: rest, n =>
    if item.name = n then some ({ item with quantity := item.quantity + 1 } :: rest)
    else (bumpFirst rest n).map (item :: ·)

/-- `add_to_cart` (src/app.py lines 178-196): merge-by-name into the session
cart, else append a fresh entry with quantity 1. -/
def add_to_cart (cart : List CartItem) (product_name : String) (price : ℚ) :
    List CartItem :=
  match bumpFirst cart product_name with
  | some c => c
  | none => cart ++ [⟨product_name, price, 1⟩]

/-- Cart total as computed by the `/cart` page (src/app.py line 244) and by
`/success` (line 284): sum of price times quantity. -/
def cartTotal (cart : List CartItem) : ℚ :=
  (cart.map (fun item => item.price * (item.quantity : ℚ))).sum

/-! ## Checkout initiation (src/app.py `checkout`, lines 248-276) -/

/-- Python `int(...)` applied to a rational: truncation toward zero. -/
def pyInt (q : ℚ) : ℤ := if 0 ≤ q then ⌊q⌋ else ⌈q⌉

/-- A Stripe line item as built at src/app.py lines 256-265: product name,
unit amount in minor currency units (`int(price * 100)`), currency, and
quantity. -/
structure LineItem where
  name : String
  unit_amount : ℤ
  currency : String
  quantity : ℕ
  deriving DecidableEq

/-- The line item `checkout` builds from one cart item (src/app.py
lines 258-265). -/
def toLineItem (item : CartItem) : LineItem :=
  ⟨item.name, pyInt (item.price * 100), "usd", item.quantity⟩

/-- Outcome of POST /checkout: either the empty-cart flash plus redirect to
the cart view (no provider call), or a 303 redirect to a payment session
created from exactly these line items. -/
inductive CheckoutResult where
  | emptyCartRedirect
  | paymentRedirect (line_items : List LineItem)
  deriving DecidableEq

/-- `checkout` (src/app.py lines 248-276): fail fast on an empty cart,
otherwise build one line item per cart item and request a payment session. -/
def checkout (cart : List CartItem) : CheckoutResult :=
  if cart.isEmpty then .emptyCartRedirect
  else .paymentRedirect (cart.map toLineItem)

/-- The /checkout handler as a state transformer: it reads the session cart
and writes neither the session nor the database. -/
def checkoutStep (s : AppState) : CheckoutResult × AppState :=
  (checkout s.cart, s)

/-! ## Payment confirmation (src/app.py `success`, lines 279-302) -/

/-- `SELECT id FROM products WHERE name = ?` followed by `fetchone()`
(src/app.py line 292): first row, in insertion order, whose name matches. -/
def findProductByName (products : List Product) (n : String) : Option Product :=
  products.find? (fun p => p.name = n)

/-- `UPDATE products SET stock = stock - ? WHERE id = ?` (src/app.py
line 299): unconditional decrement, no floor. -/
def decrementStock (products : List Product) (pid : ℕ) (q : ℕ) : List Product :=
  products.map (fun p => if p.id = pid then { p with stock := p.stock - (q : ℤ) } else p)

/-- One iteration of the loop at src/app.py lines 291-299: resolve the
product by name, insert an `OrderItem` snapshotting name/price/quantity
(with nullable product id), and, when a product was found, decrement its
stock. -/
def recordItem (db : DB) (order_id : ℕ) (item : CartItem) : DB :=
  let p := findProductByName db.products item.name
  let oi : OrderItem :=
    ⟨db.order_items.length + 1, order_id, p.map (·.id), item.name, item.price, item.quantity⟩
  let db1 := { db with order_items := db.order_items ++ [oi] }
  match p with
  | some prod => { db1 with products := decrementStock db1.products prod.id item.quantity }
  | none => db1

/-- The /success handler (src/app.py lines 279-302): pop the session cart;
if it was non-empty, re-derive the total, insert one order row with the
current UTC timestamp, then per cart item insert an order-item row and
decrement resolved stock, and commit.  `now` stands for
`datetime.utcnow().isoformat()`. -/
def success (s : AppState) (now : String) : AppState :=
  if s.cart.isEmpty then { s with cart := [] }
  else
    let total := cartTotal s.cart
    let order_id := s.db.orders.length + 1
    let db1 := { s.db with orders := s.db.orders ++ [⟨order_id, s.user, total, now⟩] }
    let db2 := s.cart.foldl (fun db item => recordItem db order_id item) db1
    { s with db := db2, cart := [] }

/-- Outcome of GET /cancel: a flash notice plus redirect back to the cart
view. -/
inductive CancelResult where
  | redirectToCart
  deriving DecidableEq

/-- The /cancel handler (src/app.py lines 304-308): flashes and redirects;
it touches neither the session cart nor the database. -/
def cancel (s : AppState) : CancelResult × AppState :=
  (.redirectToCart, s)

/-! ## Registration (src/app.py `register`, lines 120-143, and
src/admin_route.py `register`, lines 108-132) -/

/-- Python `str.strip()`: drop whitespace from both ends (the emails in
scope are ASCII, where `Char.isWhitespace` agrees with Python). -/
def pyStrip (s : String) : String :=
  String.mk (((s.data.dropWhile Char.isWhitespace).reverse.dropWhile
    Char.isWhitespace).reverse)

/-- Python `str.lower()`, character-wise (ASCII case mapping, which covers
the emails in scope). -/
def pyLower (s : String) : String := String.mk (s.data.map Char.toLower)

/-- Email normalization applied by src/app.py line 123:
`request.form["email"].strip().lower()`. -/
def normalizeEmail (email : String) : String := pyLower (pyStrip email)

/-- The fixed punctuation set of the password-strength regex
(src/app.py line 44). -/
def symbolChars : List Char := "!@#$%^&*(),.?\":\x7b\x7d|<>".toList

/-- `password_is_strong` (src/app.py lines 38-45): length at least 8 and at
least one uppercase letter, lowercase letter, digit, and symbol from the
fixed set.  The regex classes are ASCII, matching `Char.isUpper` etc. -/
def password_is_strong (password : String) : Bool :=
  decide (password.length ≥ 8)
    && password.toList.any (fun c => c.isUpper)
    && password.toList.any (fun c => c.isLower)
    && password.toList.any (fun c => c.isDigit)
    && password.toList.any (fun c => symbolChars.contains c)

/-- Outcome of POST /register: weak-password flash, duplicate-email flash
(the UNIQUE constraint raised IntegrityError), or a created user id. -/
inductive RegisterResult where
  | weakPassword
  | duplicateEmail
  | created (user_id : ℕ)
  deriving DecidableEq

/-- `register` of src/app.py (lines 120-143): normalize the email, reject
weak passwords, then insert; the UNIQUE email column makes the insert fail
exactly when a row with the same (already normalized) email exists, leaving
the store unchanged.  `hashFn` is the external `generate_password_hash`
capability; the inserted row's role takes the column DEFAULT. -/
def register (db : DB) (hashFn : String → String) (email password : String) :
    RegisterResult × DB :=
  let e := normalizeEmail email
  if !password_is_strong password then (.weakPassword, db)
  else if db.users.any (fun u => u.email = e) then (.duplicateEmail, db)
  else
    let uid := db.users.length + 1
    (.created uid, { db with users := db.users ++ [⟨uid, e, hashFn password, "user"⟩] })

/-- `register` of src/admin_route.py (lines 108-132): identical to the
src/app.py version except that the submitted email is stored verbatim —
there is no `.strip().lower()` normalization. -/
def admin_register (db : DB) (hashFn : String → String) (email password : String) :
    RegisterResult × DB :=
  if !password_is_strong password then (.weakPassword, db)
  else if db.users.any (fun u => u.email = email) then (.duplicateEmail, db)
  else
    let uid := db.users.length + 1
    (.created uid, { db with users := db.users ++ [⟨uid, email, hashFn password, "user"⟩] })

/-! ## Admin authorization gate (src/admin_route.py `admin_required`,
lines 49-67) -/

/-- Outcome of the `admin_required` decorator: redirect to login (no
session identity), redirect to the home page (access denied), or run the
wrapped handler. -/
inductive AdminGateResult where
  | redirectLogin
  | redirectMain
  | allowed
  deriving DecidableEq

/-- `SELECT role FROM users WHERE email = ?` followed by `fetchone()`
(src/admin_route.py lines 59-60). -/
def lookupRole (users : List UserRow) (email : String) : Option String :=
  (users.find? (fun u => u.email = email)).map (·.role)

/-- `admin_required` (src/admin_route.py lines 49-67): deny when the
session has no user; otherwise look the role up fresh from the users table
and deny unless it is the string admin. -/
def admin_required (db : DB) (sessionUser : Option String) : AdminGateResult :=
  match sessionUser with
  | none => .redirectLogin
  | some email =>
    match lookupRole db.users email with
    | none => .redirectMain
    | some r => if r = "admin" then .allowed else .redirectMain

/-! ## Helper lemmas -/

/-- Both branches of the /success handler leave the session cart empty. -/
theorem success_cart_empty (s : AppState) (now : String) :
    (success s now).cart = [] := by
  unfold success
  split <;> rfl

/-- On an empty session cart the /success handler only re-stores the empty
cart: the database is untouched. -/
theorem success_of_cart_empty (s : AppState) (now : String) (h : s.cart = []) :
    success s now = { s with cart := [] } := by
  unfold success
  rw [h]
  rfl

/-- When no cart item bears the name, the merge loop falls through to its
else branch. -/
theorem bumpFirst_eq_none (cart : List CartItem) (n : String)
    (h : ∀ i ∈ cart, i.name ≠ n) : bumpFirst cart n = none := by
  induction cart with
  | nil => rfl
  | cons item rest ih =>
    unfold bumpFirst
    rw [if_neg (h item (List.mem_cons_self item rest))]
    rw [ih (fun i hi => h i (List.mem_cons_of_mem item hi))]
    rfl

/-- The merge loop stops at the first item bearing the name and increments
exactly its quantity, leaving the rest of the cart as it was. -/
theorem bumpFirst_split (pre post : List CartItem) (item : CartItem) (n : String)
    (hpre : ∀ i ∈ pre, i.name ≠ n) (hit : item.name = n) :
    bumpFirst (pre ++ item :: post) n =
      some (pre ++ { item with quantity := item.quantity + 1 } :: post) := by
  induction pre with
  | nil =>
    rw [List.nil_append]
    simp only [bumpFirst]
    rw [if_pos hit]
    rfl
  | cons hd tl ih =>
    rw [List.cons_append]
    simp only [bumpFirst]
    rw [if_neg (hpre hd (List.mem_cons_self hd tl))]
    rw [ih (fun i hi => hpre i (List.mem_cons_of_mem hd hi))]
    rfl

/-! ## Claims -/

/-- A logged-in state with an empty session cart and a stocked catalog,
used as a concrete instance in several witnesses. -/
def sEmptyCart : AppState :=
  ⟨⟨[], [⟨1, "Widget", "", 10, 3⟩], [], []⟩, [], "u@example.com"⟩

/-- C5: `add_to_cart` increments the quantity of the existing item by
exactly 1 when an item with the same name is present (leaving every other
item alone), and otherwise appends a fresh entry with quantity 1; in
particular adding Widget at 10.00 twice to an empty cart yields exactly one
item with name Widget, price 10.00, quantity 2, and the cart total is
20.00. -/
theorem add_to_cart_merge_spec :
    (∀ (cart : List CartItem) (n : String) (p : ℚ),
      (∀ i ∈ cart, i.name ≠ n) →
      add_to_cart cart n p = cart ++ [⟨n, p, 1⟩]) ∧
    (∀ (pre post : List CartItem) (item : CartItem) (n : String) (p : ℚ),
      (∀ i ∈ pre, i.name ≠ n) → item.name = n →
      add_to_cart (pre ++ item :: post) n p =
        pre ++ { item with quantity := item.quantity + 1 } :: post) ∧
    add_to_cart (add_to_cart [] "Widget" 10) "Widget" 10 = [⟨"Widget", 10, 2⟩] ∧
    cartTotal (add_to_cart (add_to_cart [] "Widget" 10) "Widget" 10) = 20 := by
  refine ⟨?_, ?_, by norm_num [add_to_cart, bumpFirst], by norm_num [add_to_cart, bumpFirst, cartTotal]⟩
  · intro cart n p h
    unfold add_to_cart
    rw [bumpFirst_eq_none cart n h]
  · intro pre post item n p hpre hit
    unfold add_to_cart
    rw [bumpFirst_split pre post item n hpre hit]

/-- C5 witness: the merge-or-append behaviour at concrete carts. -/
theorem add_to_cart_merge_spec_witness :
    add_to_cart [⟨"Gadget", 5, 1⟩] "Widget" 3 =
      [⟨"Gadget", 5, 1⟩, ⟨"Widget", 3, 1⟩] ∧
    add_to_cart [⟨"Gadget", 5, 1⟩, ⟨"Widget", 10, 2⟩] "Widget" 10 =
      [⟨"Gadget", 5, 1⟩, ⟨"Widget", 10, 3⟩] := by
  constructor
  · exact add_to_cart_merge_spec.1 [⟨"Gadget", 5, 1⟩] "Widget" 3 (by decide)
  · have h := add_to_cart_merge_spec.2.1 [⟨"Gadget", 5, 1⟩] []
      ⟨"Widget", 10, 2⟩ "Widget" 10 (by decide) rfl
    simpa using h

/-- C9: cart items are merged by name alone — adding an item whose name is
already in the cart increments that item's quantity and keeps its stored
unit price; the price supplied to the new add is ignored (the result does
not mention it). -/
theorem add_to_cart_ignores_new_price (pre post : List CartItem) (n : String)
    (P : ℚ) (q : ℕ) (P' : ℚ) (hpre : ∀ i ∈ pre, i.name ≠ n) :
    add_to_cart (pre ++ ⟨n, P, q⟩ :: post) n P' = pre ++ ⟨n, P, q + 1⟩ :: post := by
  unfold add_to_cart
  rw [bumpFirst_split pre post ⟨n, P, q⟩ n hpre rfl]

/-- C9 witness: re-adding Widget at the different price 999 only bumps the
quantity and keeps the stored price 10. -/
theorem add_to_cart_ignores_new_price_witness :
    add_to_cart [⟨"Cable", 2, 4⟩, ⟨"Widget", 10, 2⟩] "Widget" 999 =
      [⟨"Cable", 2, 4⟩, ⟨"Widget", 10, 3⟩] := by
  have h := add_to_cart_ignores_new_price [⟨"Cable", 2, 4⟩] [] "Widget" 10 2 999
    (by decide)
  simpa using h

/-- C4: POST /checkout is read-only on local state (session cart and
database are returned unchanged); on an empty cart it flashes the
empty-cart warning and redirects without requesting a payment session, and
on a non-empty cart it requests a payment session built from exactly one
line item per cart item (name, price converted to minor currency units,
quantity) and redirects to it. -/
theorem checkout_spec (s : AppState) :
    (checkoutStep s).2 = s ∧
    (s.cart = [] → (checkoutStep s).1 = CheckoutResult.emptyCartRedirect) ∧
    (s.cart ≠ [] →
      (checkoutStep s).1 = CheckoutResult.paymentRedirect (s.cart.map toLineItem)) := by
  refine ⟨rfl, ?_, ?_⟩ <;> intro h <;>
    simp [checkoutStep, checkout, List.isEmpty_iff, h]

/-- A logged-in state with a one-line cart, used to witness C4. -/
def sCheckout : AppState :=
  ⟨⟨[], [], [], []⟩, [⟨"Widget", 10, 2⟩], "u@example.com"⟩

/-- C4 witness: the checkout contract at a concrete empty and a concrete
non-empty cart; 10.00 becomes 1000 minor units. -/
theorem checkout_spec_witness :
    (checkoutStep sEmptyCart).1 = CheckoutResult.emptyCartRedirect ∧
    (checkoutStep sCheckout).1 =
      CheckoutResult.paymentRedirect [⟨"Widget", 1000, "usd", 2⟩] ∧
    (checkoutStep sCheckout).2 = sCheckout := by
  refine ⟨(checkout_spec sEmptyCart).2.1 rfl, ?_, (checkout_spec sCheckout).1⟩
  have h := (checkout_spec sCheckout).2.2 (by decide)
  rw [h]
  norm_num [sCheckout, toLineItem, pyInt]

/-- The two-line cart of the specification's checkout scenario. -/
def widgetGadgetCart : List CartItem := [⟨"Widget", 10, 2⟩, ⟨"Gadget", 5, 1⟩]

/-- C1: confirming checkout on a session cart of Widget (10.00, qty 2) and
Gadget (5.00, qty 1) inserts exactly one order whose total 25.00 is
re-derived from the cart, stamped with the current UTC time, inserts
exactly two order items snapshotting each item's name, unit price and
quantity, and leaves the session cart empty (users and catalog untouched
here: the catalog is empty, so both product ids resolve to null). -/
theorem success_widget_gadget (users : List UserRow) (user now : String) :
    (success ⟨⟨users, [], [], []⟩, widgetGadgetCart, user⟩ now).db.orders
        = [⟨1, user, 25, now⟩] ∧
    (success ⟨⟨users, [], [], []⟩, widgetGadgetCart, user⟩ now).db.order_items
        = [⟨1, 1, none, "Widget", 10, 2⟩, ⟨2, 1, none, "Gadget", 5, 1⟩] ∧
    (success ⟨⟨users, [], [], []⟩, widgetGadgetCart, user⟩ now).cart = [] ∧
    (success ⟨⟨users, [], [], []⟩, widgetGadgetCart, user⟩ now).db.users = users ∧
    (success ⟨⟨users, [], [], []⟩, widgetGadgetCart, user⟩ now).db.products = [] := by
  refine ⟨?_, ?_, rfl, rfl, rfl⟩ <;>
    norm_num [success, widgetGadgetCart, cartTotal, recordItem, findProductByName]

/-- C2: replaying the confirmation is idempotent on the order store in this
sequential model: /success pops the session cart before inserting, so any
state reached after a successful confirmation has an empty cart, and a
second invocation of the handler inserts nothing — the set of orders (and
the whole database) is unchanged. -/
theorem success_replay_orders_unchanged (s : AppState) (now now' : String) :
    (success (success s now) now').db.orders = (success s now).db.orders := by
  rw [success_of_cart_empty (success s now) now' (success_cart_empty s now)]

/-- C8: cancelling a checkout is a pure frame: the session cart's items,
prices and quantities (hence its total) are unchanged and still
retrievable, and no order, order item or stock change is made; the handler
just redirects back to the cart view. -/
theorem cancel_frame (s : AppState) :
    (cancel s).2.cart = s.cart ∧
    cartTotal (cancel s).2.cart = cartTotal s.cart ∧
    (cancel s).2.db.orders = s.db.orders ∧
    (cancel s).2.db.order_items = s.db.order_items ∧
    (cancel s).2.db.products = s.db.products ∧
    (cancel s).1 = CancelResult.redirectToCart :=
  ⟨rfl, rfl, rfl, rfl, rfl, rfl⟩

/-- C10: invoking /success with an empty session cart is a no-op on
persistent state — no order row, no order-item rows, no stock update — and
the session cart stays empty. -/
theorem success_empty_cart_frame (s : AppState) (now : String) (h : s.cart = []) :
    (success s now).db = s.db ∧ (success s now).cart = [] := by
  rw [success_of_cart_empty s now h]
  exact ⟨rfl, rfl⟩

/-- Stock updates key on the product id and never touch names, so a
name lookup after `decrementStock` finds the same row, decremented when its
id matches. -/
theorem findProductByName_decrementStock (ps : List Product) (pid : ℕ) (q : ℕ)
    (n : String) :
    findProductByName (decrementStock ps pid q) n =
      (findProductByName ps n).map
        (fun p => if p.id = pid then { p with stock := p.stock - (q : ℤ) } else p) := by
  unfold findProductByName decrementStock
  rw [List.find?_map]
  have hpred : ((fun p => decide (p.name = n)) ∘ fun p : Product =>
      if p.id = pid then { p with stock := p.stock - (q : ℤ) } else p)
      = (fun p : Product => decide (p.name = n)) := by
    funext p
    by_cases h : p.id = pid <;> simp [Function.comp, h]
  rw [hpred]

/-- A state holding the last Widget (stock 1) with a cart asking for two of
them — the concrete oversell scenario. -/
def sOversell : AppState :=
  ⟨⟨[], [⟨1, "Widget", "", 10, 1⟩], [], []⟩, [⟨"Widget", 10, 2⟩], "u@example.com"⟩

/-- C3 counterexample: confirming a purchase of 2 Widgets when only 1 is in
stock drives the stock to -1, and the confirmation does not fail — the
order (total 20.00) is created anyway.  The handler has no floor-at-zero
and no sufficiency check. -/
theorem success_oversells_stock_negative :
    (success sOversell "2025-01-01T00:00:00").db.products.map Product.stock
      = [-1] ∧
    (success sOversell "2025-01-01T00:00:00").db.orders.map Order.total
      = [20] := by
  constructor <;>
    norm_num [success, sOversell, cartTotal, recordItem, findProductByName,
      decrementStock]

/-- C3 amended: checkout confirmation decrements each resolved product's
stock by the purchased quantity unconditionally — there is no floor at zero
and no insufficient-stock failure, so the stock can go negative while the
order is still created (shown here for a one-line cart resolving to a
catalog product). -/
theorem success_decrement_no_floor (s : AppState) (now n : String) (pr : ℚ)
    (q : ℕ) (p : Product)
    (hcart : s.cart = [⟨n, pr, q⟩])
    (hfind : findProductByName s.db.products n = some p) :
    findProductByName (success s now).db.products n =
      some { p with stock := p.stock - (q : ℤ) } ∧
    (success s now).db.orders =
      s.db.orders ++ [⟨s.db.orders.length + 1, s.user, pr * (q : ℚ), now⟩] := by
  unfold success
  rw [hcart]
  simp only [List.isEmpty_cons, if_false, Bool.false_eq_true, List.foldl_cons,
    List.foldl_nil]
  unfold recordItem
  simp only [hfind]
  constructor
  · rw [findProductByName_decrementStock, hfind]
    simp
  · simp [cartTotal]

/-- C3 witness: the unconditional-decrement theorem applied to the concrete
oversell state. -/
theorem success_decrement_no_floor_witness :
    findProductByName (success sOversell "t").db.products "Widget" =
      some { id := 1, name := "Widget", description := "", price := 10,
             stock := (1 : ℤ) - ((2 : ℕ) : ℤ) } ∧
    (success sOversell "t").db.orders =
      sOversell.db.orders ++
        [⟨sOversell.db.orders.length + 1, sOversell.user, 10 * ((2 : ℕ) : ℚ), "t"⟩] :=
  success_decrement_no_floor sOversell "t" "Widget" 10 2 ⟨1, "Widget", "", 10, 1⟩
    rfl rfl

/-- Stub for the external password-hashing capability. -/
def hashStub : String → String := fun _ => "digest"

/-- The empty database. -/
def dbEmpty : DB := ⟨[], [], [], []⟩

/-- C6 counterexample: in src/admin_route.py's `register` the submitted
email is not normalized, so after registering the address admin@shop.com a
second registration with the case-variant Admin@Shop.com — equal
case-insensitively — succeeds with a fresh user id instead of failing with
the duplicate-email error, and both spellings are stored verbatim. -/
theorem admin_register_case_variant_accepted :
    pyLower "Admin@Shop.com" = pyLower "admin@shop.com" ∧
    (admin_register
        (admin_register dbEmpty hashStub "admin@shop.com" "Aa1!aaaa").2
        hashStub "Admin@Shop.com" "Aa1!aaaa").1 = RegisterResult.created 2 ∧
    (admin_register
        (admin_register dbEmpty hashStub "admin@shop.com" "Aa1!aaaa").2
        hashStub "Admin@Shop.com" "Aa1!aaaa").2.users.map UserRow.email =
      ["admin@shop.com", "Admin@Shop.com"] := by
  decide

/-- C6 amended: src/app.py's `register` normalizes the email (trim,
lowercase) before storing, and a second registration whose email
normalizes to the same address fails with the duplicate-email error
leaving the user store unchanged; src/admin_route.py's `register`, by
contrast, stores the submitted email verbatim (no normalization), so it
does not treat case-variants of a stored address as duplicates. -/
theorem register_normalize_amended :
    (∀ (db db' : DB) (hf : String → String) (e1 p1 e2 p2 : String) (uid : ℕ),
      register db hf e1 p1 = (RegisterResult.created uid, db') →
      password_is_strong p2 = true →
      normalizeEmail e2 = normalizeEmail e1 →
      db'.users.map UserRow.email
          = db.users.map UserRow.email ++ [normalizeEmail e1] ∧
      register db' hf e2 p2 = (RegisterResult.duplicateEmail, db')) ∧
    (∀ (db : DB) (hf : String → String) (e p : String),
      (admin_register db hf e p).2.users.map UserRow.email
          = db.users.map UserRow.email ∨
      (admin_register db hf e p).2.users.map UserRow.email
          = db.users.map UserRow.email ++ [e]) := by
  constructor
  · intro db db' hf e1 p1 e2 p2 uid h1 hp2 heq
    unfold register at h1
    by_cases hs : password_is_strong p1
    · by_cases hd : db.users.any (fun u => u.email = normalizeEmail e1)
      · simp [hs, hd] at h1
      · simp only [hs, hd, Bool.not_true, Bool.false_eq_true, if_false,
          Prod.mk.injEq] at h1
        obtain ⟨-, hdb⟩ := h1
        subst hdb
        constructor
        · simp
        · unfold register
          rw [heq]
          simp [hp2, List.any_append]
    · simp [hs] at h1
  · intro db hf e p
    unfold admin_register
    by_cases hs : password_is_strong p
    · by_cases hd : db.users.any (fun u => u.email = e)
      · simp [hs, hd]
      · simp [hs, hd]
    · simp [hs]

/-- C6 witness: registering the address Alice@X.com with a leading space
stores alice@x.com, and a follow-up registration of alice@x.com is
rejected as a duplicate with the store unchanged. -/
theorem register_normalize_amended_witness :
    register (register dbEmpty hashStub " Alice@X.com" "Aa1!aaaa").2 hashStub
        "alice@x.com" "Aa1!aaaa"
      = (RegisterResult.duplicateEmail,
         (register dbEmpty hashStub " Alice@X.com" "Aa1!aaaa").2) ∧
    (register dbEmpty hashStub " Alice@X.com" "Aa1!aaaa").2.users.map UserRow.email
      = ["alice@x.com"] := by
  obtain ⟨hmap, hdup⟩ := register_normalize_amended.1 dbEmpty
    (register dbEmpty hashStub " Alice@X.com" "Aa1!aaaa").2 hashStub
    " Alice@X.com" "Aa1!aaaa" "alice@x.com" "Aa1!aaaa" 1 rfl (by decide) (by decide)
  exact ⟨hdup, by rw [hmap]; decide⟩

/-- C7: the admin gate denies — redirecting away without running the
handler — when the session has no identity, denies when the role looked up
fresh from the users table on this very request is missing or not admin,
and allows the handler exactly when that fresh lookup yields admin.
Because the gate consults only the current table (the theorem holds for
every `db`), a role downgrade takes effect on the next request. -/
theorem admin_required_spec (db : DB) (u : Option String) :
    (u = none → admin_required db u = AdminGateResult.redirectLogin) ∧
    (∀ e, u = some e → lookupRole db.users e ≠ some "admin" →
      admin_required db u = AdminGateResult.redirectMain) ∧
    (∀ e, u = some e → lookupRole db.users e = some "admin" →
      admin_required db u = AdminGateResult.allowed) := by
  refine ⟨?_, ?_, ?_⟩
  · intro h
    subst h
    rfl
  · intro e hu hr
    subst hu
    cases hrole : lookupRole db.users e with
    | none => simp [admin_required, hrole]
    | some r =>
      have hne : r ≠ "admin" := fun hc => hr (by rw [hrole, hc])
      simp [admin_required, hrole, hne]
  · intro e hu hr
    subst hu
    simp [admin_required, hr]

/-- A credential store with one admin and one plain user, used to witness
the gate. -/
def dbRoles : DB :=
  ⟨[⟨1, "admin@shop.com", "digest", "admin"⟩, ⟨2, "bob@x.com", "digest", "user"⟩],
   [], [], []⟩

/-- C7 witness: the gate at a concrete store — missing identity redirects
to login, the plain user is denied, the admin is allowed. -/
theorem admin_required_spec_witness :
    admin_required dbRoles none = AdminGateResult.redirectLogin ∧
    admin_required dbRoles (some "bob@x.com") = AdminGateResult.redirectMain ∧
    admin_required dbRoles (some "admin@shop.com") = AdminGateResult.allowed :=
  ⟨(admin_required_spec dbRoles none).1 rfl,
   (admin_required_spec dbRoles (some "bob@x.com")).2.1 "bob@x.com" rfl (by decide),
   (admin_required_spec dbRoles (some "admin@shop.com")).2.2 "admin@shop.com" rfl
     (by decide)⟩

/-- C10 witness: the empty-cart frame theorem at a concrete state. -/
theorem success_empty_cart_frame_witness :
    (success sEmptyCart "2025-01-01T00:00:00").db = sEmptyCart.db ∧
    (success sEmptyCart "2025-01-01T00:00:00").cart = [] :=
  success_empty_cart_frame sEmptyCart "2025-01-01T00:00:00" rfl

end AIWebshop
